import Mathlib

/-!
Shallow embedding of the Smart Emergency Responder monitor (`src/App.jsx` and
`src/worker.js`).  JavaScript numbers for network metadata and coordinates are
modelled as rationals; timestamps (`Date.now()`, `setTimeout` fire times) as
natural numbers of milliseconds.  Each `setTimeout` slot of the component is a
field holding `Option` of its absolute fire time, and a fuelled scheduler
(`advanceTo`) fires due timers in chronological order.
-/

namespace EmergencyResponder

/-- A log entry as produced by `addLog`: a timestamp prefix plus the message. -/
structure LogEntry where
  timestamp : ℕ
  message : String
deriving DecidableEq

/-- `addLog` from `App.jsx` (lines 24-34): appends the new entry; when the list
already holds more than 20 entries it keeps only the last 19 before appending
(`prev.slice(-19)`). -/
def addLog (t : ℕ) (message : String) (logs : List LogEntry) : List LogEntry :=
  if logs.length > 20 then
    logs.drop (logs.length - 19) ++ [⟨t, message⟩]
  else
    logs ++ [⟨t, message⟩]

/-- A geographic position `{ lat, lng }`. -/
structure Loc where
  lat : ℚ
  lng : ℚ
deriving DecidableEq

/-- The component state of `App`: the React state hooks plus the three
`setTimeout` slots (`inactivityTimer`, `emergencyTimer`, and the anonymous
10-second resolution timeout inside `triggerEmergency`). -/
structure AppState where
  location : Option Loc
  networkStatus : String
  isInactive : Bool
  emergencyMode : Bool
  logs : List LogEntry
  inactivityTimer : Option ℕ
  emergencyTimer : Option ℕ
  resolveTimer : Option ℕ
deriving DecidableEq

/-- The initial hook values of `App` with no timer pending. -/
def initialState : AppState :=
  { location := none
    networkStatus := "checking..."
    isInactive := false
    emergencyMode := false
    logs := []
    inactivityTimer := none
    emergencyTimer := none
    resolveTimer := none }

/-- `triggerEmergency(reason)` (lines 190-204): ignored while active, otherwise
sets emergency mode, logs, and schedules the 10-second auto-resolution. -/
def triggerEmergency (t : ℕ) (reason : String) (s : AppState) : AppState :=
  if s.emergencyMode then s
  else
    { s with
      emergencyMode := true
      logs := addLog t ("EMERGENCY: " ++ reason) s.logs
      resolveTimer := some (t + 10000) }

/-- The body of the 10-second `setTimeout` inside `triggerEmergency`
(lines 198-201). -/
def resolveFire (t : ℕ) (s : AppState) : AppState :=
  { s with
    emergencyMode := false
    logs := addLog t "Emergency resolved" s.logs
    resolveTimer := none }

/-- Whether `needle` occurs at the head of `hay` (character-wise). -/
def startsWithL (needle hay : List Char) : Bool :=
  match needle, hay with
  | [], _ => true
  | _ :: _, [] => false
  | a :: as, b :: bs => a == b && startsWithL as bs

/-- Whether `needle` occurs somewhere inside `hay`; JavaScript
`String.prototype.includes` on the character lists. -/
def includesL (needle hay : List Char) : Bool :=
  match hay with
  | [] => startsWithL needle []
  | _ :: rest => startsWithL needle hay || includesL needle rest

/-- `a.includes(b)` on strings. -/
def includesSub (needle s : String) : Bool :=
  includesL needle.data s.data

/-- The classification chain of `updateNetworkStatus` (lines 99-110): the
`poor` test is evaluated first, then `very-poor`, then `good`. -/
def classifyNetwork (effectiveType : String) (downlink rtt : ℚ) : String :=
  if includesSub "2g" effectiveType || downlink < 1 || rtt > 1000 then "poor"
  else if includesSub "slow-2g" effectiveType || downlink < 1/2 || rtt > 2000 then
    "very-poor"
  else "good"

/-- `handleNetworkEmergency` (lines 179-188): logs, cancels any pending
escalation timer (`clearTimeout`) and arms a fresh 30-second one. -/
def handleNetworkEmergency (t : ℕ) (s : AppState) : AppState :=
  { s with
    logs := addLog t "Poor network detected - monitoring" s.logs
    emergencyTimer := some (t + 30000) }

/-- The body of the 30-second `setTimeout` inside `handleNetworkEmergency`
(lines 183-187): trigger `NETWORK_FAILURE` only if the stored network status
is still `very-poor`. -/
def emergencyTimerFire (t : ℕ) (s : AppState) : AppState :=
  let s1 := { s with emergencyTimer := none }
  if s.networkStatus = "very-poor" then triggerEmergency t "NETWORK_FAILURE" s1
  else s1

/-- `updateNetworkStatus` (lines 91-117): classify the connection metadata,
store the status, and invoke `handleNetworkEmergency` on `very-poor`. -/
def updateNetworkStatus (t : ℕ) (effectiveType : String) (downlink rtt : ℚ)
    (s : AppState) : AppState :=
  let status := classifyNetwork effectiveType downlink rtt
  let s1 := { s with networkStatus := status }
  if status = "very-poor" then handleNetworkEmergency t s1 else s1

/-- `handleActivity` (lines 153-161): clear the inactive flag, cancel the
pending countdown and arm a fresh 45-second one. -/
def handleActivity (t : ℕ) (s : AppState) : AppState :=
  { s with
    isInactive := false
    inactivityTimer := some (t + 45000) }

/-- The body of the 45-second `setTimeout` inside `handleActivity`
(lines 156-160): set the inactive flag, log, and trigger `INACTIVITY`. -/
def inactivityTimerFire (t : ℕ) (s : AppState) : AppState :=
  let s1 :=
    { s with
      isInactive := true
      inactivityTimer := none
      logs := addLog t "User inactive - possible emergency" s.logs }
  triggerEmergency t "INACTIVITY" s1

/-- `geoSuccess` (lines 50-65): accept a reading only when there is no previous
location or some axis moved by strictly more than 0.0001 degrees; on
acceptance log "Location updated" and store the new position. -/
def geoSuccess (t : ℕ) (latitude longitude : ℚ) (s : AppState) : AppState :=
  match s.location with
  | none =>
    { s with
      location := some ⟨latitude, longitude⟩
      logs := addLog t "Location updated" s.logs }
  | some prev =>
    if |prev.lat - latitude| > 1/10000 ∨ |prev.lng - longitude| > 1/10000 then
      { s with
        location := some ⟨latitude, longitude⟩
        logs := addLog t "Location updated" s.logs }
    else s

/-- The three `setTimeout` slots of the component. -/
inductive TimerKind where
  | resolve
  | inactivity
  | escalation
deriving DecidableEq

/-- The pending fire time of each timer slot. -/
def timerTime (s : AppState) : TimerKind → Option ℕ
  | .resolve => s.resolveTimer
  | .inactivity => s.inactivityTimer
  | .escalation => s.emergencyTimer

/-- Run the callback of the given timer slot at its fire time. -/
def fireTimer (k : TimerKind) (tf : ℕ) (s : AppState) : AppState :=
  match k with
  | .resolve => resolveFire tf s
  | .inactivity => inactivityTimerFire tf s
  | .escalation => emergencyTimerFire tf s

/-- The earliest timer due at or before time `t`, if any. -/
def earliestDue (t : ℕ) (s : AppState) : Option (TimerKind × ℕ) :=
  let due := [TimerKind.resolve, TimerKind.inactivity, TimerKind.escalation].filterMap
    (fun k => (timerTime s k).bind (fun tf => if tf ≤ t then some (k, tf) else none))
  due.foldl
    (fun acc p =>
      match acc with
      | none => some p
      | some q => if p.2 < q.2 then some p else some q)
    none

/-- Fire all due timers in chronological order, with fuel (each firing consumes
its one-shot slot; at most five firings can ever be due, so fuel 8 is ample). -/
def advanceAux : ℕ → ℕ → AppState → AppState
  | 0, _, s => s
  | fuel + 1, t, s =>
    match earliestDue t s with
    | none => s
    | some (k, tf) => advanceAux fuel t (fireTimer k tf s)

/-- The state observed at time `t`: all timers due at or before `t` have fired. -/
def advanceTo (t : ℕ) (s : AppState) : AppState :=
  advanceAux 8 t s

/-- The closure state of `throttle(func, limit)` (lines 254-273): `lastRan` is
the timestamp of the last real run of `func`, and `pending` the fire time and
arguments of the single outstanding trailing `setTimeout` (`lastFunc`). -/
structure ThrottleState (α : Type) where
  lastRan : Option ℕ
  pending : Option (ℕ × α)
deriving DecidableEq

/-- One invocation of the wrapped function at time `t`.  The first-ever call
runs `func` synchronously; any later call cancels the pending trailing timer
and schedules a new one with delay `limit - (Date.now() - lastRan)` (clamped at
zero by `setTimeout`, which the truncated subtraction mirrors), keeping only
this call's arguments.  Returns the new state and the runs of `func` emitted. -/
def throttleCall (limit t : ℕ) (arg : α) (s : ThrottleState α) :
    ThrottleState α × List (ℕ × α) :=
  match s.lastRan with
  | none => ({ s with lastRan := some t }, [(t, arg)])
  | some lr => ({ s with pending := some (t + (limit - (t - lr)), arg) }, [])

/-- Fire the pending trailing timer if it is due strictly before `cutoff`
(a timer due at the very instant of a new call is cancelled by its
`clearTimeout`, as the call's task runs first).  The timer body re-checks
`Date.now() - lastRan >= limit` before running `func`. -/
def fireDue (limit cutoff : ℕ) (s : ThrottleState α) :
    ThrottleState α × List (ℕ × α) :=
  match s.pending with
  | none => (s, [])
  | some (tf, a) =>
    if tf < cutoff then
      if limit ≤ tf - (s.lastRan.getD 0) then
        ({ lastRan := some tf, pending := none }, [(tf, a)])
      else ({ s with pending := none }, [])
    else (s, [])

/-- Process a chronological list of calls into the wrapped function, firing the
trailing timer whenever it comes due between calls. -/
def throttleRun (limit : ℕ) :
    ThrottleState α → List (ℕ × α) → ThrottleState α × List (ℕ × α)
  | s, [] => (s, [])
  | s, (t, a) :: rest =>
    let r1 := fireDue limit t s
    let r2 := throttleCall limit t a r1.1
    let r3 := throttleRun limit r2.1 rest
    (r3.1, r1.2 ++ r2.2 ++ r3.2)

/-- Let the trailing timer left after the last call fire (time passes). -/
def throttleFlush (limit : ℕ) (s : ThrottleState α) : List (ℕ × α) :=
  match s.pending with
  | none => []
  | some (tf, a) =>
    if limit ≤ tf - (s.lastRan.getD 0) then [(tf, a)] else []

/-- All runs of `func` produced by a chronological call sequence starting from
the given closure state, once every armed timer has been allowed to fire. -/
def throttleRunsFrom (limit : ℕ) (s : ThrottleState α) (calls : List (ℕ × α)) :
    List (ℕ × α) :=
  let r := throttleRun limit s calls
  r.2 ++ throttleFlush limit r.1

/-- All runs of `func` produced by a call sequence against a fresh wrapper. -/
def throttleRuns (limit : ℕ) (calls : List (ℕ × α)) : List (ℕ × α) :=
  throttleRunsFrom limit ⟨none, none⟩ calls

/-! ## Helper lemmas -/

theorem addLog_of_length_le (t : ℕ) (m : String) (l : List LogEntry)
    (h : l.length ≤ 20) : addLog t m l = l ++ [⟨t, m⟩] := by
  unfold addLog
  rw [if_neg (by omega)]

theorem length_addLog (t : ℕ) (m : String) (l : List LogEntry) :
    (addLog t m l).length = if l.length > 20 then 20 else l.length + 1 := by
  unfold addLog
  split
  · simp
    omega
  · simp

theorem addLog_suffix (t : ℕ) (m : String) (l : List LogEntry) :
    addLog t m l <:+ l ++ [⟨t, m⟩] := by
  unfold addLog
  split
  · exact ⟨l.take (l.length - 19), by rw [← List.append_assoc, List.take_append_drop]⟩
  · exact List.suffix_refl _

theorem addLog_getLast (t : ℕ) (m : String) (l : List LogEntry) :
    (addLog t m l).getLast? = some ⟨t, m⟩ := by
  unfold addLog
  split <;> exact List.getLast?_concat _

theorem emergency_msg_ne (reason : String) :
    ("EMERGENCY: " ++ reason) ≠ "Emergency resolved" := by
  intro h
  have h2 : ("EMERGENCY: " ++ reason).data = ("Emergency resolved" : String).data := by
    rw [h]
  have h3 : ("EMERGENCY: " ++ reason).data = "EMERGENCY: ".data ++ reason.data := rfl
  rw [h3] at h2
  have h4 : "EMERGENCY: ".data = ['E', 'M', 'E', 'R', 'G', 'E', 'N', 'C', 'Y', ':', ' '] :=
    rfl
  have h5 : ("Emergency resolved" : String).data =
      ['E', 'm', 'e', 'r', 'g', 'e', 'n', 'c', 'y', ' ',
       'r', 'e', 's', 'o', 'l', 'v', 'e', 'd'] := rfl
  rw [h4, h5, List.cons_append, List.cons_append] at h2
  injection h2 with _ h8
  injection h8 with h9 _
  exact absurd h9 (by decide)

theorem startsWithL_drop (pre suf : List Char) :
    ∀ hay, startsWithL (pre ++ suf) hay = true → includesL suf hay = true := by
  induction pre with
  | nil =>
    intro hay h
    cases hay with
    | nil => simpa [includesL] using h
    | cons b bs =>
      simp only [List.nil_append] at h
      simp [includesL, h]
  | cons p ps ih =>
    intro hay h
    cases hay with
    | nil => simp [startsWithL] at h
    | cons b bs =>
      simp only [List.cons_append, startsWithL, Bool.and_eq_true] at h
      have h2 := ih bs h.2
      simp [includesL, h2]

theorem includesL_drop (pre suf : List Char) :
    ∀ hay, includesL (pre ++ suf) hay = true → includesL suf hay = true := by
  intro hay
  induction hay with
  | nil =>
    intro h
    cases hpre : pre with
    | nil =>
      cases hsuf : suf with
      | nil => simp [includesL, startsWithL]
      | cons c cs => rw [hpre, hsuf] at h; simp [includesL, startsWithL] at h
    | cons c cs => rw [hpre] at h; simp [includesL, startsWithL] at h
  | cons b bs ih =>
    intro h
    simp only [includesL, Bool.or_eq_true] at h ⊢
    rcases h with h | h
    · have h2 := startsWithL_drop pre suf (b :: bs) h
      simpa only [includesL, Bool.or_eq_true] using h2
    · exact Or.inr (ih h)

theorem includesSub_slow2g (s : String) :
    includesSub "slow-2g" s = true → includesSub "2g" s = true := by
  intro h
  have h2 : includesL ("slow-".data ++ "2g".data) s.data = true := h
  exact includesL_drop "slow-".data "2g".data s.data h2

theorem poorCond_iff (et : String) (d r : ℚ) :
    (includesSub "2g" et || decide (d < 1) || decide (r > 1000)) = true ↔
      (includesSub "2g" et = true ∨ d < 1 ∨ r > 1000) := by
  simp [Bool.or_eq_true, decide_eq_true_eq, or_assoc]

theorem vpCond_iff (et : String) (d r : ℚ) :
    (includesSub "slow-2g" et || decide (d < 1/2) || decide (r > 2000)) = true ↔
      (includesSub "slow-2g" et = true ∨ d < 1/2 ∨ r > 2000) := by
  simp [Bool.or_eq_true, decide_eq_true_eq, or_assoc]

/-! ## Claim theorems -/

/-- Claim C2: network classification is a pure function of
`(effectiveType, downlink, rtt)` returning one of good, poor or very-poor; the
poor condition (effectiveType contains "2g", or downlink below 1, or rtt above
1000) is evaluated before the very-poor condition (effectiveType contains
"slow-2g", or downlink below 0.5, or rtt above 2000), so a sample satisfying
both yields poor and never very-poor, and a sample satisfying neither yields
good; `updateNetworkStatus` stores exactly this classification. -/
theorem classification_pure_order (et : String) (d r : ℚ) (t : ℕ) (s : AppState) :
    (classifyNetwork et d r = "good" ∨ classifyNetwork et d r = "poor" ∨
      classifyNetwork et d r = "very-poor") ∧
    ((includesSub "2g" et = true ∨ d < 1 ∨ r > 1000) →
      classifyNetwork et d r = "poor") ∧
    ((includesSub "2g" et = true ∨ d < 1 ∨ r > 1000) →
      (includesSub "slow-2g" et = true ∨ d < 1/2 ∨ r > 2000) →
      classifyNetwork et d r = "poor" ∧ classifyNetwork et d r ≠ "very-poor") ∧
    ((includesSub "2g" et = false ∧ 1 ≤ d ∧ r ≤ 1000 ∧
        includesSub "slow-2g" et = false ∧ 1/2 ≤ d ∧ r ≤ 2000) →
      classifyNetwork et d r = "good") ∧
    (updateNetworkStatus t et d r s).networkStatus = classifyNetwork et d r := by
  have hpoor : ∀ hp : includesSub "2g" et = true ∨ d < 1 ∨ r > 1000,
      classifyNetwork et d r = "poor" := by
    intro hp
    unfold classifyNetwork
    rw [if_pos ((poorCond_iff et d r).mpr hp)]
  refine ⟨?_, hpoor, fun hp _ => ⟨hpoor hp, by rw [hpoor hp]; decide⟩, ?_, ?_⟩
  · unfold classifyNetwork
    by_cases hp : (includesSub "2g" et || decide (d < 1) || decide (r > 1000)) = true
    · rw [if_pos hp]; right; left; rfl
    · rw [if_neg hp]
      by_cases hv :
          (includesSub "slow-2g" et || decide (d < 1/2) || decide (r > 2000)) = true
      · rw [if_pos hv]; right; right; rfl
      · rw [if_neg hv]; left; rfl
  · rintro ⟨h1, h2, h3, h4, h5, h6⟩
    unfold classifyNetwork
    have hnp : ¬((includesSub "2g" et || decide (d < 1) || decide (r > 1000)) = true) := by
      intro hc
      rcases (poorCond_iff et d r).mp hc with hc | hc | hc
      · rw [h1] at hc; exact absurd hc (by decide)
      · linarith
      · linarith
    have hnv :
        ¬((includesSub "slow-2g" et || decide (d < 1/2) || decide (r > 2000)) = true) := by
      intro hc
      rcases (vpCond_iff et d r).mp hc with hc | hc | hc
      · rw [h4] at hc; exact absurd hc (by decide)
      · linarith
      · linarith
    rw [if_neg hnp, if_neg hnv]
  · dsimp only [updateNetworkStatus]
    split
    · simp [handleNetworkEmergency]
    · rfl

/-- Witness for C2, at a sample satisfying both the poor and the very-poor
conditions: the result is poor. -/
theorem classification_pure_order_witness :
    (classifyNetwork "slow-2g" 0 3000 = "good" ∨
      classifyNetwork "slow-2g" 0 3000 = "poor" ∨
      classifyNetwork "slow-2g" 0 3000 = "very-poor") ∧
    ((includesSub "2g" "slow-2g" = true ∨ (0 : ℚ) < 1 ∨ (3000 : ℚ) > 1000) →
      classifyNetwork "slow-2g" 0 3000 = "poor") ∧
    ((includesSub "2g" "slow-2g" = true ∨ (0 : ℚ) < 1 ∨ (3000 : ℚ) > 1000) →
      (includesSub "slow-2g" "slow-2g" = true ∨ (0 : ℚ) < 1/2 ∨ (3000 : ℚ) > 2000) →
      classifyNetwork "slow-2g" 0 3000 = "poor" ∧
        classifyNetwork "slow-2g" 0 3000 ≠ "very-poor") ∧
    ((includesSub "2g" "slow-2g" = false ∧ (1 : ℚ) ≤ 0 ∧ (3000 : ℚ) ≤ 1000 ∧
        includesSub "slow-2g" "slow-2g" = false ∧ (1 : ℚ)/2 ≤ 0 ∧ (3000 : ℚ) ≤ 2000) →
      classifyNetwork "slow-2g" 0 3000 = "good") ∧
    (updateNetworkStatus 0 "slow-2g" 0 3000 initialState).networkStatus =
      classifyNetwork "slow-2g" 0 3000 :=
  classification_pure_order "slow-2g" 0 3000 0 initialState

/-- Claim C9: the classification function can never return very-poor — each
very-poor disjunct implies a poor disjunct that is checked first ("slow-2g"
contains "2g", downlink below 0.5 is below 1, rtt above 2000 is above 1000) —
so `updateNetworkStatus` reduces to storing the classification and the
escalation path (`handleNetworkEmergency`) is never invoked from it: no
escalation timer is armed and no monitoring log entry is appended. -/
theorem classify_never_very_poor (et : String) (d r : ℚ) (t : ℕ) (s : AppState) :
    classifyNetwork et d r ≠ "very-poor" ∧
    updateNetworkStatus t et d r s =
      { s with networkStatus := classifyNetwork et d r } := by
  have hne : classifyNetwork et d r ≠ "very-poor" := by
    unfold classifyNetwork
    by_cases hp : (includesSub "2g" et || decide (d < 1) || decide (r > 1000)) = true
    · rw [if_pos hp]; decide
    · have hv :
          ¬((includesSub "slow-2g" et || decide (d < 1/2) || decide (r > 2000)) = true) := by
        intro hvv
        apply hp
        apply (poorCond_iff et d r).mpr
        rcases (vpCond_iff et d r).mp hvv with hc | hc | hc
        · exact Or.inl (includesSub_slow2g et hc)
        · exact Or.inr (Or.inl (by linarith))
        · exact Or.inr (Or.inr (by linarith))
      rw [if_neg hp, if_neg hv]
      decide
  refine ⟨hne, ?_⟩
  dsimp only [updateNetworkStatus]
  rw [if_neg hne]

/-- Claim C8: starting from the empty log, the length of the log never exceeds
the capacity (exactly 21 entries: `addLog` evicts only once the list already
holds more than 20 entries, keeping the last 19 before appending); every append
places the new entry at the end, and the appended log is always a suffix of the
old log followed by the new entry, so entries are only ever removed oldest
first and are never modified. -/
theorem log_bounded_ordered_eviction (appends : List (ℕ × String)) (t : ℕ)
    (m : String) (l : List LogEntry) :
    (appends.foldl (fun acc p => addLog p.1 p.2 acc) []).length ≤ 21 ∧
    addLog t m l <:+ l ++ [⟨t, m⟩] ∧
    (addLog t m l).getLast? = some ⟨t, m⟩ := by
  refine ⟨?_, addLog_suffix t m l, addLog_getLast t m l⟩
  have key : ∀ (ap : List (ℕ × String)) (init : List LogEntry), init.length ≤ 21 →
      (ap.foldl (fun acc p => addLog p.1 p.2 acc) init).length ≤ 21 := by
    intro ap
    induction ap with
    | nil => intro init h; simpa using h
    | cons p ps ih =>
      intro init h
      simp only [List.foldl_cons]
      refine ih _ ?_
      rw [length_addLog]
      split <;> omega
  exact key appends [] (by simp)

/-- Claim C1: while an emergency is active, any sequence of further
`triggerEmergency` calls (made before the resolution timer fires, i.e. with no
timer firing interleaved) leaves the state — emergency flag, log, and pending
timers — completely unchanged, regardless of the reasons passed, including
`MANUAL_TEST`. -/
theorem arbiter_at_most_one_active (s : AppState) (calls : List (ℕ × String))
    (h : s.emergencyMode = true) :
    calls.foldl (fun st p => triggerEmergency p.1 p.2 st) s = s := by
  induction calls with
  | nil => rfl
  | cons c cs ih =>
    simp only [List.foldl_cons]
    have hstep : triggerEmergency c.1 c.2 s = s := by
      simp [triggerEmergency, h]
    rw [hstep]
    exact ih

/-- Witness for C1: with an emergency already active from a `MANUAL_TEST`
trigger, two further triggers change nothing. -/
theorem arbiter_at_most_one_active_witness :
    [((5000 : ℕ), "MANUAL_TEST"), (6000, "NETWORK_FAILURE")].foldl
        (fun st p => triggerEmergency p.1 p.2 st)
        (triggerEmergency 0 "MANUAL_TEST" initialState) =
      triggerEmergency 0 "MANUAL_TEST" initialState :=
  arbiter_at_most_one_active (triggerEmergency 0 "MANUAL_TEST" initialState)
    [((5000 : ℕ), "MANUAL_TEST"), (6000, "NETWORK_FAILURE")] (by decide)

/-- Claim C7: the stored location changes exactly when there is no previously
accepted reading or the new reading differs from it by strictly more than
0.0001 degrees in latitude or longitude; an accepted reading replaces the
location and appends a "Location updated" log entry, while a below-threshold
reading leaves the whole state (location and log) untouched. -/
theorem location_significant_change (t : ℕ) (la ln : ℚ) (s : AppState) :
    ((geoSuccess t la ln s).location ≠ s.location ↔
      (s.location = none ∨ ∃ p : Loc, s.location = some p ∧
        (|p.lat - la| > 1/10000 ∨ |p.lng - ln| > 1/10000))) ∧
    ((s.location = none ∨ ∃ p : Loc, s.location = some p ∧
        (|p.lat - la| > 1/10000 ∨ |p.lng - ln| > 1/10000)) →
      geoSuccess t la ln s =
        { s with
          location := some ⟨la, ln⟩
          logs := addLog t "Location updated" s.logs }) ∧
    ((∃ p : Loc, s.location = some p ∧ |p.lat - la| ≤ 1/10000 ∧
        |p.lng - ln| ≤ 1/10000) →
      geoSuccess t la ln s = s) := by
  cases hloc : s.location with
  | none =>
    refine ⟨?_, fun _ => ?_, fun hp => ?_⟩
    · simp [geoSuccess, hloc]
    · simp [geoSuccess, hloc]
    · obtain ⟨p, hp1, _⟩ := hp
      exact absurd hp1 (by simp)
  | some p =>
    by_cases hcond : |p.lat - la| > 1/10000 ∨ |p.lng - ln| > 1/10000
    · have hne : (⟨la, ln⟩ : Loc) ≠ p := by
        intro he
        rcases hcond with hc | hc
        · rw [← he] at hc
          simp at hc
          linarith [abs_nonneg (la - la)]
        · rw [← he] at hc
          simp at hc
          linarith [abs_nonneg (ln - ln)]
      refine ⟨?_, fun _ => ?_, fun hp2 => ?_⟩
      · simp only [geoSuccess, hloc, if_pos hcond]
        constructor
        · intro _
          exact Or.inr ⟨p, rfl, hcond⟩
        · intro _
          simp only [ne_eq, Option.some.injEq]
          exact hne
      · simp only [geoSuccess, hloc, if_pos hcond]
      · exfalso
        obtain ⟨q, hq1, hq2, hq3⟩ := hp2
        injection hq1 with hq1
        rw [← hq1] at hq2 hq3
        rcases hcond with hc | hc
        · linarith
        · linarith
    · refine ⟨?_, fun hacc => ?_, fun _ => ?_⟩
      · simp only [geoSuccess, hloc, if_neg hcond]
        constructor
        · intro hdiff
          exact absurd rfl hdiff
        · intro hr
          exfalso
          rcases hr with hr | hr
          · exact absurd hr (by simp)
          · obtain ⟨q, hq1, hq2⟩ := hr
            injection hq1 with hq1
            rw [← hq1] at hq2
            exact hcond hq2
      · exfalso
        rcases hacc with hr | hr
        · exact absurd hr (by simp)
        · obtain ⟨q, hq1, hq2⟩ := hr
          injection hq1 with hq1
          rw [← hq1] at hq2
          exact hcond hq2
      · simp only [geoSuccess, hloc, if_neg hcond]

/-- Witness for C7: a first reading is always accepted. -/
theorem location_significant_change_witness :
    ((geoSuccess 0 1 2 initialState).location ≠ initialState.location ↔
      (initialState.location = none ∨ ∃ p : Loc, initialState.location = some p ∧
        (|p.lat - 1| > 1/10000 ∨ |p.lng - 2| > 1/10000))) ∧
    ((initialState.location = none ∨ ∃ p : Loc, initialState.location = some p ∧
        (|p.lat - 1| > 1/10000 ∨ |p.lng - 2| > 1/10000)) →
      geoSuccess 0 1 2 initialState =
        { initialState with
          location := some ⟨1, 2⟩
          logs := addLog 0 "Location updated" initialState.logs }) ∧
    ((∃ p : Loc, initialState.location = some p ∧ |p.lat - 1| ≤ 1/10000 ∧
        |p.lng - 2| ≤ 1/10000) →
      geoSuccess 0 1 2 initialState = initialState) :=
  location_significant_change 0 1 2 initialState

/-- Claim C4: `updateNetworkStatus` arms the single 30-second escalation timer
exactly when classification yields very-poor (replacing any pending one);
repeated `handleNetworkEmergency` calls leave exactly one pending timer, due 30
seconds after the last call; and when the timer fires it triggers the Arbiter
with `NETWORK_FAILURE` if the stored network status is still very-poor and
otherwise performs no trigger at all. -/
theorem network_escalation_single_timer (t : ℕ) (ts : List ℕ) (et : String)
    (d r : ℚ) (s : AppState) :
    ((updateNetworkStatus t et d r s).emergencyTimer =
      if classifyNetwork et d r = "very-poor" then some (t + 30000)
      else s.emergencyTimer) ∧
    ((ts.foldl (fun st u => handleNetworkEmergency u st) s).emergencyTimer =
      match ts.getLast? with
      | none => s.emergencyTimer
      | some u => some (u + 30000)) ∧
    (s.networkStatus = "very-poor" →
      emergencyTimerFire t s =
        triggerEmergency t "NETWORK_FAILURE" { s with emergencyTimer := none }) ∧
    (s.networkStatus ≠ "very-poor" →
      emergencyTimerFire t s = { s with emergencyTimer := none }) := by
  refine ⟨?_, ?_, fun hvp => ?_, fun hnvp => ?_⟩
  · dsimp only [updateNetworkStatus]
    split
    · simp [handleNetworkEmergency]
    · rfl
  · induction ts generalizing s with
    | nil => rfl
    | cons u us ih =>
      simp only [List.foldl_cons]
      rw [ih]
      cases us with
      | nil => simp [handleNetworkEmergency]
      | cons v vs =>
        have hsome : ((v :: vs).getLast?).isSome := by
          rw [List.getLast?_isSome]
          simp
        obtain ⟨w, hw⟩ := Option.isSome_iff_exists.mp hsome
        rw [List.getLast?_cons_cons, hw]
  · dsimp only [emergencyTimerFire]
    rw [if_pos hvp]
  · dsimp only [emergencyTimerFire]
    rw [if_neg hnvp]

/-- Witness for C4: three rapid escalations from a state whose stored status is
very-poor leave exactly one timer, due 30 seconds after the last call. -/
theorem network_escalation_single_timer_witness :
    ((updateNetworkStatus 0 "x" 5 0
        { initialState with networkStatus := "very-poor" }).emergencyTimer =
      if classifyNetwork "x" 5 0 = "very-poor" then some (0 + 30000)
      else ({ initialState with networkStatus := "very-poor" } : AppState).emergencyTimer) ∧
    (([100, 200, 300].foldl (fun st u => handleNetworkEmergency u st)
        { initialState with networkStatus := "very-poor" }).emergencyTimer =
      match ([100, 200, 300] : List ℕ).getLast? with
      | none => ({ initialState with networkStatus := "very-poor" } : AppState).emergencyTimer
      | some u => some (u + 30000)) ∧
    (({ initialState with networkStatus := "very-poor" } : AppState).networkStatus =
        "very-poor" →
      emergencyTimerFire 0 { initialState with networkStatus := "very-poor" } =
        triggerEmergency 0 "NETWORK_FAILURE"
          { { initialState with networkStatus := "very-poor" } with
            emergencyTimer := none }) ∧
    (({ initialState with networkStatus := "very-poor" } : AppState).networkStatus ≠
        "very-poor" →
      emergencyTimerFire 0 { initialState with networkStatus := "very-poor" } =
        { { initialState with networkStatus := "very-poor" } with
          emergencyTimer := none }) :=
  network_escalation_single_timer 0 [100, 200, 300] "x" 5 0
    { initialState with networkStatus := "very-poor" }

theorem earliestDue_none (t : ℕ) (s : AppState) (h1 : s.resolveTimer = none)
    (h2 : s.inactivityTimer = none) (h3 : s.emergencyTimer = none) :
    earliestDue t s = none := by
  simp [earliestDue, timerTime, h1, h2, h3]

theorem advanceAux_of_none (n t : ℕ) (s : AppState) (h : earliestDue t s = none) :
    advanceAux n t s = s := by
  cases n with
  | zero => rfl
  | succ m => simp [advanceAux, h]

theorem advanceAux_of_some (n t tf : ℕ) (k : TimerKind) (s : AppState)
    (h : earliestDue t s = some (k, tf)) :
    advanceAux (n + 1) t s = advanceAux n t (fireTimer k tf s) := by
  simp [advanceAux, h]

theorem earliestDue_resolve_only (t tf : ℕ) (s : AppState)
    (h1 : s.resolveTimer = some tf) (h2 : s.inactivityTimer = none)
    (h3 : s.emergencyTimer = none) :
    earliestDue t s = if tf ≤ t then some (TimerKind.resolve, tf) else none := by
  simp only [earliestDue, timerTime, h1, h2, h3]
  split
  · simp_all
  · simp_all

theorem earliestDue_inactivity_only (t tf : ℕ) (s : AppState)
    (h1 : s.resolveTimer = none) (h2 : s.inactivityTimer = some tf)
    (h3 : s.emergencyTimer = none) :
    earliestDue t s = if tf ≤ t then some (TimerKind.inactivity, tf) else none := by
  simp only [earliestDue, timerTime, h1, h2, h3]
  split
  · simp_all
  · simp_all

theorem advanceTo_fix (t : ℕ) (s : AppState) (h1 : s.resolveTimer = none)
    (h2 : s.inactivityTimer = none) (h3 : s.emergencyTimer = none) :
    advanceTo t s = s :=
  advanceAux_of_none 8 t s (earliestDue_none t s h1 h2 h3)

/-- Claim C3: triggering the Arbiter at `t0` from an idle state with no pending
timers makes the emergency active exactly on the half-open interval
`[t0, t0 + 10s)`; at and after `t0 + 10s` the automatic resolution has fired
(for every reason), leaving the state idle with no pending resolution timer,
the log extended by exactly the trigger entry and one "Emergency resolved"
entry. -/
theorem arbiter_auto_resolution (s : AppState) (reason : String) (t0 t : ℕ)
    (hIdle : s.emergencyMode = false) (hR : s.resolveTimer = none)
    (hI : s.inactivityTimer = none) (hE : s.emergencyTimer = none)
    (hLen : s.logs.length ≤ 19) :
    ((advanceTo t (triggerEmergency t0 reason s)).emergencyMode = true ↔
      t < t0 + 10000) ∧
    (t0 + 10000 ≤ t →
      (advanceTo t (triggerEmergency t0 reason s)).logs =
        s.logs ++ [⟨t0, "EMERGENCY: " ++ reason⟩,
                   ⟨t0 + 10000, "Emergency resolved"⟩] ∧
      ((advanceTo t (triggerEmergency t0 reason s)).logs.countP
          (fun e => e.message == "Emergency resolved")) =
        (s.logs.countP (fun e => e.message == "Emergency resolved")) + 1 ∧
      (advanceTo t (triggerEmergency t0 reason s)).resolveTimer = none) := by
  have hs1 : triggerEmergency t0 reason s =
      { s with
        emergencyMode := true
        logs := s.logs ++ [⟨t0, "EMERGENCY: " ++ reason⟩]
        resolveTimer := some (t0 + 10000) } := by
    simp [triggerEmergency, hIdle, addLog_of_length_le t0 _ s.logs (by omega)]
  by_cases ht : t0 + 10000 ≤ t
  · have hdue : earliestDue t (triggerEmergency t0 reason s) =
        some (TimerKind.resolve, t0 + 10000) := by
      rw [hs1]
      rw [earliestDue_resolve_only t (t0 + 10000) _ rfl (by simp [hI]) (by simp [hE])]
      rw [if_pos ht]
    have hfire : fireTimer TimerKind.resolve (t0 + 10000) (triggerEmergency t0 reason s) =
        { s with
          emergencyMode := false
          logs := s.logs ++ [⟨t0, "EMERGENCY: " ++ reason⟩,
                             ⟨t0 + 10000, "Emergency resolved"⟩]
          resolveTimer := none } := by
      rw [hs1]
      simp only [fireTimer, resolveFire]
      rw [addLog_of_length_le _ _ _ (by simp; omega)]
      simp
    have hadv : advanceTo t (triggerEmergency t0 reason s) =
        { s with
          emergencyMode := false
          logs := s.logs ++ [⟨t0, "EMERGENCY: " ++ reason⟩,
                             ⟨t0 + 10000, "Emergency resolved"⟩]
          resolveTimer := none } := by
      unfold advanceTo
      rw [advanceAux_of_some 7 t (t0 + 10000) TimerKind.resolve _ hdue, hfire]
      exact advanceAux_of_none 7 t _ (earliestDue_none t _ rfl (by simp [hI]) (by simp [hE]))
    rw [hadv]
    refine ⟨by simp; omega, fun _ => ⟨rfl, ?_, rfl⟩⟩
    simp only [List.countP_append]
    have hcp : List.countP (fun e => e.message == "Emergency resolved")
        [(⟨t0, "EMERGENCY: " ++ reason⟩ : LogEntry),
         ⟨t0 + 10000, "Emergency resolved"⟩] = 1 := by
      simp [List.countP_cons, emergency_msg_ne reason]
    omega
  · have hfix : advanceTo t (triggerEmergency t0 reason s) =
        triggerEmergency t0 reason s := by
      unfold advanceTo
      apply advanceAux_of_none
      rw [hs1]
      rw [earliestDue_resolve_only t (t0 + 10000) _ rfl (by simp [hI]) (by simp [hE])]
      rw [if_neg ht]
    rw [hfix, hs1]
    exact ⟨by simp; omega, fun hcon => absurd hcon ht⟩

/-- Witness for C3: a `MANUAL_TEST` trigger at time 0 observed at 10000 ms. -/
theorem arbiter_auto_resolution_witness :
    ((advanceTo 10000 (triggerEmergency 0 "MANUAL_TEST" initialState)).emergencyMode =
        true ↔ 10000 < 0 + 10000) ∧
    (0 + 10000 ≤ 10000 →
      (advanceTo 10000 (triggerEmergency 0 "MANUAL_TEST" initialState)).logs =
        initialState.logs ++ [⟨0, "EMERGENCY: " ++ "MANUAL_TEST"⟩,
                              ⟨0 + 10000, "Emergency resolved"⟩] ∧
      ((advanceTo 10000 (triggerEmergency 0 "MANUAL_TEST" initialState)).logs.countP
          (fun e => e.message == "Emergency resolved")) =
        (initialState.logs.countP (fun e => e.message == "Emergency resolved")) + 1 ∧
      (advanceTo 10000 (triggerEmergency 0 "MANUAL_TEST" initialState)).resolveTimer =
        none) :=
  arbiter_auto_resolution initialState "MANUAL_TEST" 0 10000 rfl rfl rfl rfl
    (by decide)

/-- Claim C10: the inactivity countdown is armed only by an activity event:
from the freshly mounted state, in which no countdown exists, any amount of
elapsed time fires no timer at all — the state stays exactly the initial one,
the inactive flag stays false, no emergency is ever triggered and no log entry
is produced. -/
theorem no_activity_never_inactivity (t : ℕ) :
    advanceTo t initialState = initialState ∧
    (advanceTo t initialState).isInactive = false ∧
    (advanceTo t initialState).emergencyMode = false ∧
    (advanceTo t initialState).logs = [] ∧
    initialState.inactivityTimer = none := by
  have h : advanceTo t initialState = initialState :=
    advanceTo_fix t initialState rfl rfl rfl
  rw [h]
  exact ⟨rfl, rfl, rfl, rfl, rfl⟩

/-- Counterexample to C5 as stated: from the freshly mounted state — a state of
the system — 46 seconds elapse with no recognized input event, yet the
inactive flag is not set, no log entry is appended, and the Arbiter is never
triggered, because no countdown was ever armed. -/
theorem inactivity_startup_no_trigger :
    (advanceTo 46000 initialState).isInactive = false ∧
    (advanceTo 46000 initialState).emergencyMode = false ∧
    (advanceTo 46000 initialState).logs = [] := by
  decide

/-- Claim C5 (amended): the 45-second countdown exists only once armed by a
recognized activity event; each recognized activity event clears the inactive
flag and resets the countdown to 45 seconds from the event.  If an activity
event at `ta` is followed by no further recognized event, then from
`ta + 45s` (so in particular after 46 seconds) the inactive flag is set, an
inactivity log entry is appended, and the Arbiter is active with reason
`INACTIVITY`, auto-clearing at `ta + 55s`. -/
theorem inactivity_detection (s : AppState) (ta t : ℕ)
    (hIdle : s.emergencyMode = false) (hR : s.resolveTimer = none)
    (hE : s.emergencyTimer = none) (hLen : s.logs.length ≤ 18) :
    (handleActivity ta s).isInactive = false ∧
    (handleActivity ta s).inactivityTimer = some (ta + 45000) ∧
    (ta + 45000 ≤ t → t < ta + 55000 →
      (advanceTo t (handleActivity ta s)).isInactive = true ∧
      (advanceTo t (handleActivity ta s)).emergencyMode = true ∧
      (advanceTo t (handleActivity ta s)).logs =
        s.logs ++ [⟨ta + 45000, "User inactive - possible emergency"⟩,
                   ⟨ta + 45000, "EMERGENCY: INACTIVITY"⟩]) ∧
    (ta + 55000 ≤ t →
      (advanceTo t (handleActivity ta s)).isInactive = true ∧
      (advanceTo t (handleActivity ta s)).emergencyMode = false ∧
      (advanceTo t (handleActivity ta s)).logs =
        s.logs ++ [⟨ta + 45000, "User inactive - possible emergency"⟩,
                   ⟨ta + 45000, "EMERGENCY: INACTIVITY"⟩,
                   ⟨ta + 55000, "Emergency resolved"⟩]) := by
  have hnum : ta + 45000 + 10000 = ta + 55000 := by omega
  have hl1 : addLog (ta + 45000) "User inactive - possible emergency" s.logs =
      s.logs ++ [⟨ta + 45000, "User inactive - possible emergency"⟩] :=
    addLog_of_length_le _ _ _ (by omega)
  have hl2 : addLog (ta + 45000) ("EMERGENCY: INACTIVITY")
      (s.logs ++ [⟨ta + 45000, "User inactive - possible emergency"⟩]) =
      s.logs ++ [⟨ta + 45000, "User inactive - possible emergency"⟩,
                 ⟨ta + 45000, "EMERGENCY: INACTIVITY"⟩] := by
    rw [addLog_of_length_le _ _ _ (by simp; omega)]
    simp
  have hfire : fireTimer TimerKind.inactivity (ta + 45000) (handleActivity ta s) =
      { s with
        isInactive := true
        emergencyMode := true
        logs := s.logs ++ [⟨ta + 45000, "User inactive - possible emergency"⟩,
                           ⟨ta + 45000, "EMERGENCY: INACTIVITY"⟩]
        inactivityTimer := none
        resolveTimer := some (ta + 55000) } := by
    simp only [fireTimer, inactivityTimerFire, handleActivity, triggerEmergency]
    simp [hIdle, hl1, hl2, hnum]
  have hdue1 : ta + 45000 ≤ t → earliestDue t (handleActivity ta s) =
      some (TimerKind.inactivity, ta + 45000) := by
    intro ht
    rw [earliestDue_inactivity_only t (ta + 45000) _ (by simp [handleActivity, hR]) rfl
      (by simp [handleActivity, hE])]
    rw [if_pos ht]
  refine ⟨rfl, rfl, fun h1 h2 => ?_, fun h2 => ?_⟩
  · have hadv : advanceTo t (handleActivity ta s) =
        { s with
          isInactive := true
          emergencyMode := true
          logs := s.logs ++ [⟨ta + 45000, "User inactive - possible emergency"⟩,
                             ⟨ta + 45000, "EMERGENCY: INACTIVITY"⟩]
          inactivityTimer := none
          resolveTimer := some (ta + 55000) } := by
      unfold advanceTo
      rw [advanceAux_of_some 7 t _ _ _ (hdue1 h1), hfire]
      apply advanceAux_of_none
      rw [earliestDue_resolve_only t (ta + 55000) _ rfl rfl (by simp [hE])]
      rw [if_neg (by omega)]
    rw [hadv]
    exact ⟨rfl, rfl, rfl⟩
  · have h1 : ta + 45000 ≤ t := by omega
    have hfire2 : fireTimer TimerKind.resolve (ta + 55000)
        ({ s with
          isInactive := true
          emergencyMode := true
          logs := s.logs ++ [⟨ta + 45000, "User inactive - possible emergency"⟩,
                             ⟨ta + 45000, "EMERGENCY: INACTIVITY"⟩]
          inactivityTimer := none
          resolveTimer := some (ta + 55000) } : AppState) =
        { s with
          isInactive := true
          emergencyMode := false
          logs := s.logs ++ [⟨ta + 45000, "User inactive - possible emergency"⟩,
                             ⟨ta + 45000, "EMERGENCY: INACTIVITY"⟩,
                             ⟨ta + 55000, "Emergency resolved"⟩]
          inactivityTimer := none
          resolveTimer := none } := by
      simp only [fireTimer, resolveFire]
      rw [addLog_of_length_le _ _ _ (by simp; omega)]
      simp
    have hadv : advanceTo t (handleActivity ta s) =
        { s with
          isInactive := true
          emergencyMode := false
          logs := s.logs ++ [⟨ta + 45000, "User inactive - possible emergency"⟩,
                             ⟨ta + 45000, "EMERGENCY: INACTIVITY"⟩,
                             ⟨ta + 55000, "Emergency resolved"⟩]
          inactivityTimer := none
          resolveTimer := none } := by
      unfold advanceTo
      rw [advanceAux_of_some 7 t _ _ _ (hdue1 h1), hfire]
      rw [advanceAux_of_some 6 t (ta + 55000) TimerKind.resolve _ ?hdue2]
      case hdue2 =>
        rw [earliestDue_resolve_only t (ta + 55000) _ rfl rfl (by simp [hE])]
        rw [if_pos h2]
      rw [hfire2]
      apply advanceAux_of_none
      exact earliestDue_none t _ rfl rfl (by simp [hE])
    rw [hadv]
    exact ⟨rfl, rfl, rfl⟩

/-- Witness for C5 (amended): activity at time 0, then nothing, observed at 46
seconds. -/
theorem inactivity_detection_witness :
    (handleActivity 0 initialState).isInactive = false ∧
    (handleActivity 0 initialState).inactivityTimer = some (0 + 45000) ∧
    (0 + 45000 ≤ 46000 → 46000 < 0 + 55000 →
      (advanceTo 46000 (handleActivity 0 initialState)).isInactive = true ∧
      (advanceTo 46000 (handleActivity 0 initialState)).emergencyMode = true ∧
      (advanceTo 46000 (handleActivity 0 initialState)).logs =
        initialState.logs ++ [⟨0 + 45000, "User inactive - possible emergency"⟩,
                              ⟨0 + 45000, "EMERGENCY: INACTIVITY"⟩]) ∧
    (0 + 55000 ≤ 46000 →
      (advanceTo 46000 (handleActivity 0 initialState)).isInactive = true ∧
      (advanceTo 46000 (handleActivity 0 initialState)).emergencyMode = false ∧
      (advanceTo 46000 (handleActivity 0 initialState)).logs =
        initialState.logs ++ [⟨0 + 45000, "User inactive - possible emergency"⟩,
                              ⟨0 + 45000, "EMERGENCY: INACTIVITY"⟩,
                              ⟨0 + 55000, "Emergency resolved"⟩]) :=
  inactivity_detection initialState 0 46000 rfl rfl rfl (by decide)

theorem throttleRun_window {α : Type} (limit t1 : ℕ) :
    ∀ (rest : List (ℕ × α)) (b : α),
      (∀ p ∈ rest, t1 < p.1 ∧ p.1 < t1 + limit) →
      throttleRun limit ⟨some t1, some (t1 + limit, b)⟩ rest =
        (⟨some t1, some (t1 + limit, ((rest.getLast?).map Prod.snd).getD b)⟩, []) := by
  intro rest
  induction rest with
  | nil => intro b _; rfl
  | cons c cs ih =>
    intro b hmem
    obtain ⟨tc, ac⟩ := c
    have hc := hmem (tc, ac) (by simp)
    simp only at hc
    have hcs : ∀ p ∈ cs, t1 < p.1 ∧ p.1 < t1 + limit := fun p hp =>
      hmem p (List.mem_cons_of_mem _ hp)
    have hfire : fireDue limit tc (⟨some t1, some (t1 + limit, b)⟩ : ThrottleState α) =
        (⟨some t1, some (t1 + limit, b)⟩, []) := by
      simp only [fireDue]
      rw [if_neg (by omega)]
    have hcall : throttleCall limit tc ac (⟨some t1, some (t1 + limit, b)⟩ :
        ThrottleState α) = (⟨some t1, some (t1 + limit, ac)⟩, []) := by
      simp only [throttleCall]
      have harith : tc + (limit - (tc - t1)) = t1 + limit := by omega
      rw [harith]
    simp only [throttleRun, hfire, hcall, ih ac hcs]
    cases cs with
    | nil => rfl
    | cons d ds => rw [List.getLast?_cons_cons]; rfl

/-- Claim C6 (amended): measuring quiet periods from the last run of the
callback (not the last call into the wrapper): a call made at least `limit`
after the last real run fires the callback at that same timestamp — via a
zero-delay trailing timer except for the wrapper's very first call, which runs
synchronously; and any call sequence against a fresh wrapper whose calls all
fall within `limit` of the first call produces exactly one immediate run at
the first call's time with the first call's arguments, plus — if there was at
least one further call — exactly one trailing run at `limit` after the
immediate run, carrying the arguments of the last call, never an earlier
call's. -/
theorem throttle_immediate_and_trailing {α : Type} (limit t1 lr t : ℕ)
    (a1 a : α) (rest : List (ℕ × α))
    (hwin : ∀ p ∈ rest, t1 < p.1 ∧ p.1 < t1 + limit)
    (hquiet : lr + limit ≤ t) :
    (throttleRuns limit ((t1, a1) :: rest) =
      match rest.getLast? with
      | none => [(t1, a1)]
      | some p => [(t1, a1), (t1 + limit, p.2)]) ∧
    throttleRunsFrom limit ⟨some lr, none⟩ [(t, a)] = [(t, a)] := by
  constructor
  · have hfirst : throttleCall limit t1 a1 (⟨none, none⟩ : ThrottleState α) =
        (⟨some t1, none⟩, [(t1, a1)]) := rfl
    cases rest with
    | nil =>
      simp [throttleRuns, throttleRunsFrom, throttleRun, fireDue, hfirst, throttleFlush]
    | cons c cs =>
      obtain ⟨t2, a2⟩ := c
      have hc := hwin (t2, a2) (by simp)
      simp only at hc
      have hcs : ∀ p ∈ cs, t1 < p.1 ∧ p.1 < t1 + limit := fun p hp =>
        hwin p (List.mem_cons_of_mem _ hp)
      have hcall2 : throttleCall limit t2 a2 (⟨some t1, none⟩ : ThrottleState α) =
          (⟨some t1, some (t1 + limit, a2)⟩, []) := by
        simp only [throttleCall]
        have harith : t2 + (limit - (t2 - t1)) = t1 + limit := by omega
        rw [harith]
      have hflush : throttleFlush limit
          (⟨some t1, some (t1 + limit, ((cs.getLast?).map Prod.snd).getD a2)⟩ :
            ThrottleState α) =
          [(t1 + limit, ((cs.getLast?).map Prod.snd).getD a2)] := by
        simp only [throttleFlush]
        rw [if_pos (by simp)]
      simp only [throttleRuns, throttleRunsFrom, throttleRun, fireDue, hfirst,
        hcall2, throttleRun_window limit t1 cs a2 hcs, hflush]
      cases cs with
      | nil => rfl
      | cons d ds =>
        rw [List.getLast?_cons_cons]
        have hsome : ((d :: ds).getLast?).isSome := by
          rw [List.getLast?_isSome]
          simp
        obtain ⟨w, hw⟩ := Option.isSome_iff_exists.mp hsome
        rw [hw]
        rfl
  · have harith : t + (limit - (t - lr)) = t := by omega
    simp only [throttleRunsFrom, throttleRun, fireDue, throttleCall, harith,
      throttleFlush]
    rw [if_pos (by simp; omega)]
    rfl

/-- Witness for C6 (amended): three calls at 0, 10, 20 ms against a fresh
100 ms wrapper run immediately at 0 with the first arguments and trail once at
100 with the last arguments; a later call 200 ms after a run at 0 fires at its
own timestamp. -/
theorem throttle_immediate_and_trailing_witness :
    (throttleRuns 100 [((0 : ℕ), (1 : ℕ)), (10, 2), (20, 3)] =
      match ([((10 : ℕ), (2 : ℕ)), (20, 3)]).getLast? with
      | none => [(0, 1)]
      | some p => [(0, 1), (100, p.2)]) ∧
    throttleRunsFrom 100 ⟨some 0, none⟩ [((200 : ℕ), (7 : ℕ))] = [(200, 7)] :=
  throttle_immediate_and_trailing 100 0 0 200 1 7 [(10, 2), (20, 3)]
    (by decide) (by decide)

/-- Counterexample to C6 as stated: with interval 100 and calls at 0, 1 and
150, the call at 150 is the first invocation in a quiet period in the claim's
sense — no call occurred in the preceding 100 ms — yet the callback does not
run at 150: the trailing run of the earlier window ran at 100, so the 150 call
is deferred to 200.  The observed runs are at 0, 100 and 200 only. -/
theorem throttle_quiet_call_not_immediate :
    throttleRuns 100 [((0 : ℕ), (1 : ℕ)), (1, 2), (150, 3)] =
      [(0, 1), (100, 2), (200, 3)] ∧
    ((150 : ℕ), (3 : ℕ)) ∉ throttleRuns 100 [((0 : ℕ), (1 : ℕ)), (1, 2), (150, 3)] := by
  constructor
  · rfl
  · decide

end EmergencyResponder
